import Mathlib

/-!
Verification of the graphton MCP tool-loading subsystem.

This development gives a shallow embedding of the core logic of the
repository: the template engine (`graphton/core/template.py`, modelled from
the specification since the module itself is not part of the checked
sources), the server configuration model (`config.py`), the remote tool
loader (`mcp_manager.py`), the tool-loading middleware (`middleware.py`) and
the tool wrapper generator (`tool_wrappers.py` together with the wiring in
`agent.py`).

Network effects are made explicit: `load_mcp_tools` receives the outcome of
`MultiServerMCPClient.get_tools()` as an argument, and the middleware hooks
receive the awaited `load_mcp_tools` call as a `Loader` argument, exactly the
way the repository tests exercise the middleware by patching
`graphton.core.middleware.load_mcp_tools`. The arity of the unpatched call
itself is modelled separately in the call-binding section.

All definitions are executable, so every concrete scenario can be settled by
evaluation.
-/

/-- Python single quote character, used when rendering list reprs in error
messages. -/
def sQuote : String := String.mk [Char.ofNat 39]

/-- Left curly brace as a string (Python f-string literals contain these). -/
def pyLb : String := String.mk [Char.ofNat 123]

/-- Right curly brace as a string. -/
def pyRb : String := String.mk [Char.ofNat 125]

/-- Left curly brace character, used by the template scanner. -/
def lbraceC : Char := Char.ofNat 123

/-- Right curly brace character, used by the template scanner. -/
def rbraceC : Char := Char.ofNat 125

/-- Strict lexicographic comparison of character lists by code point, the
order Python uses when sorting strings. -/
def strLtB : List Char → List Char → Bool
  | [], [] => false
  | [], _ :: _ => true
  | _ :: _, [] => false
  | x :: xs, y :: ys =>
    if x.toNat < y.toNat then true
    else if y.toNat < x.toNat then false
    else strLtB xs ys

/-- Non-strict string comparison by code point. -/
def pyStrLe (a b : String) : Bool := !(strLtB b.data a.data)

/-- Insert a string into a list that is kept in non-decreasing order. -/
def insertStr (s : String) : List String → List String
  | [] => [s]
  | t :: ts => if pyStrLe s t then s :: t :: ts else t :: insertStr s ts

/-- Insertion sort of strings; models Python `sorted` on strings. -/
def sortStrs : List String → List String
  | [] => []
  | s :: ts => insertStr s (sortStrs ts)

/-- Python `sorted(set(xs))`: duplicates removed, then sorted. -/
def sortedSet (xs : List String) : List String := sortStrs xs.dedup

/-- Adjacent-pairs sortedness check for string lists. -/
def sortedAdjB : List String → Bool
  | [] => true
  | [_] => true
  | a :: b :: rest => pyStrLe a b && sortedAdjB (b :: rest)


/-- Prefix check on character lists. -/
def isPrefixB : List Char → List Char → Bool
  | [], _ => true
  | _ :: _, [] => false
  | a :: as, b :: bs => a = b && isPrefixB as bs

/-- Substring containment on character lists. -/
def containsSubB (sub : List Char) : List Char → Bool
  | [] => sub.isEmpty
  | c :: cs => isPrefixB sub (c :: cs) || containsSubB sub cs

/-- Containment of one string inside another, used to state the stable
error-message substrings of the external interface contract. -/
def strContains (sub s : String) : Prop := containsSubB sub.data s.data = true

instance (sub s : String) : Decidable (strContains sub s) := by
  unfold strContains; infer_instance


/-- Python dict assignment `d[k] = v` on an insertion-ordered association
list: overwrite in place when the key exists, append otherwise. -/
def pyDictInsert {β : Type} (d : List (String × β)) (k : String) (v : β) :
    List (String × β) :=
  if d.any (fun kv => kv.1 == k) then
    d.map (fun kv => if kv.1 == k then (k, v) else kv)
  else d ++ [(k, v)]

/-- Python dict lookup on an association list (first binding wins, which
matches dicts whose keys are unique). -/
def pyLookup {β : Type} (d : List (String × β)) (k : String) : Option β :=
  List.lookup k d

/-- Python `repr` of a list of strings, e.g. a rendering of
`["A", "B"]` with single quotes around each element. -/
def pyReprList (xs : List String) : String :=
  "[" ++ String.intercalate ", " (xs.map (fun s => sQuote ++ s ++ sQuote)) ++ "]"

/-- Python `str.strip()`: remove leading and trailing whitespace. -/
def pyStrip (s : String) : String :=
  String.mk (((s.data.dropWhile Char.isWhitespace).reverse.dropWhile Char.isWhitespace).reverse)

/-! ## Template engine

Modelled from the spec: `graphton/core/template.py` is imported by the
middleware (`extract_template_vars`, `substitute_templates`) but is not among
the checked sources, so the definitions below follow section 4.1 of the
specification: placeholders are occurrences of double-open-brace, optional
whitespace, an identifier of letters, digits and underscores, optional
whitespace, double-close-brace, anywhere inside the string leaves of a nested
configuration value. -/

/-- Identifier characters of a template variable name. -/
def isIdentChar (c : Char) : Bool := c.isAlphanum || c = '_'

/-- Try to read `ws ident ws` followed by a double close brace, returning the
identifier and the characters after the closing braces. -/
def tryVar (cs : List Char) : Option (String × List Char) :=
  let cs1 := cs.dropWhile Char.isWhitespace
  let ident := cs1.takeWhile isIdentChar
  let cs2 := cs1.dropWhile isIdentChar
  if ident.isEmpty then none
  else
    let cs3 := cs2.dropWhile Char.isWhitespace
    match cs3 with
    | c1 :: c2 :: rest =>
      if c1 = rbraceC then
        if c2 = rbraceC then some (String.mk ident, rest) else none
      else none
    | _ => none

/-- Fuel-indexed scanner collecting every placeholder name in a character
list. -/
def scanVarsAux : Nat → List Char → List String
  | 0, _ => []
  | _ + 1, [] => []
  | n + 1, c :: cs =>
    if c = lbraceC then
      match cs with
      | c2 :: rest =>
        if c2 = lbraceC then
          match tryVar rest with
          | some (name, rest2) => name :: scanVarsAux n rest2
          | none => scanVarsAux n cs
        else scanVarsAux n cs
      | [] => []
    else scanVarsAux n cs

/-- Placeholder names occurring in one string, in order of occurrence. -/
def scanVars (s : String) : List String := scanVarsAux (s.data.length + 1) s.data

/-- Generic nested configuration value: maps, sequences and scalars, the
substitution target described by the spec. -/
inductive ConfigValue where
  | str (v : String)
  | num (v : Int)
  | boolVal (v : Bool)
  | null
  | arr (items : List ConfigValue)
  | obj (fields : List (String × ConfigValue))

mutual

/-- Modelled from the spec: `extract_template_vars` walks a nested structure
and collects the placeholder identifiers of every string scalar. -/
def extractVarsValue : ConfigValue → List String
  | ConfigValue.str v => scanVars v
  | ConfigValue.num _ => []
  | ConfigValue.boolVal _ => []
  | ConfigValue.null => []
  | ConfigValue.arr items => extractVarsArr items
  | ConfigValue.obj fields => extractVarsObj fields

/-- Variable collection over a sequence of nested values. -/
def extractVarsArr : List ConfigValue → List String
  | [] => []
  | v :: vs => extractVarsValue v ++ extractVarsArr vs

/-- Variable collection over the fields of a nested map. -/
def extractVarsObj : List (String × ConfigValue) → List String
  | [] => []
  | (_, v) :: fs => extractVarsValue v ++ extractVarsObj fs

end

/-- Modelled from the spec: the set of distinct placeholder names of a nested
configuration (Python returns a `set`; the model removes duplicates and keeps
first occurrences). -/
def extract_template_vars (node : ConfigValue) : List String :=
  (extractVarsValue node).dedup

/-- Modelled from the spec: `has_templates` is true iff the extracted
variable set is non-empty. -/
def has_templates (node : ConfigValue) : Bool :=
  !(extract_template_vars node).isEmpty

/-- Fuel-indexed scanner replacing every placeholder whose name is bound in
`vals`; unreplaced text is passed through unchanged. -/
def substCharsAux : Nat → List (String × String) → List Char → List Char
  | 0, _, cs => cs
  | _ + 1, _, [] => []
  | n + 1, vals, c :: cs =>
    if c = lbraceC then
      match cs with
      | c2 :: rest =>
        if c2 = lbraceC then
          match tryVar rest with
          | some (name, rest2) =>
            match pyLookup vals name with
            | some v => v.data ++ substCharsAux n vals rest2
            | none => c :: substCharsAux n vals cs
          | none => c :: substCharsAux n vals cs
        else c :: substCharsAux n vals cs
      | [] => [c]
    else c :: substCharsAux n vals cs

/-- Placeholder replacement inside one string. -/
def substString (vals : List (String × String)) (s : String) : String :=
  String.mk (substCharsAux (s.data.length + 1) vals s.data)

mutual

/-- Deep-copy substitution over a nested value. -/
def substValue (vals : List (String × String)) : ConfigValue → ConfigValue
  | ConfigValue.str v => ConfigValue.str (substString vals v)
  | ConfigValue.num v => ConfigValue.num v
  | ConfigValue.boolVal v => ConfigValue.boolVal v
  | ConfigValue.null => ConfigValue.null
  | ConfigValue.arr items => ConfigValue.arr (substArr vals items)
  | ConfigValue.obj fields => ConfigValue.obj (substObj vals fields)

/-- Substitution over a sequence of nested values. -/
def substArr (vals : List (String × String)) : List ConfigValue → List ConfigValue
  | [] => []
  | v :: vs => substValue vals v :: substArr vals vs

/-- Substitution over the fields of a nested map. -/
def substObj (vals : List (String × String)) :
    List (String × ConfigValue) → List (String × ConfigValue)
  | [] => []
  | (k, v) :: fs => (k, substValue vals v) :: substObj vals fs

end

/-- Error raised by the template engine when referenced variables are not
supplied, listing them deterministically sorted. -/
inductive TemplateError where
  | missingTemplateVariables (missing : List String)
  deriving DecidableEq

/-- Modelled from the spec: `substitute_templates` returns a deep copy with
every placeholder replaced, or fails listing every referenced-but-unsupplied
variable name sorted; extra entries in `values` are ignored. -/
def substitute_templates (node : ConfigValue) (values : List (String × String)) :
    Except TemplateError ConfigValue :=
  let referenced := extract_template_vars node
  let provided := values.map Prod.fst
  let missing := referenced.filter (fun v => !provided.contains v)
  if missing.isEmpty then Except.ok (substValue values node)
  else Except.error (TemplateError.missingTemplateVariables (sortedSet missing))

/-! ## Server configuration model, from `config.py` -/

/-- Validated MCP server configuration, from `McpServerConfig` in
`config.py`. -/
structure McpServerConfig where
  transport : String
  url : String
  auth_from_context : Bool
  headers : Option (List (String × String))
  deriving DecidableEq

/-- Advisory emitted by `McpServerConfig.validate_headers` when a static
Authorization header is present. -/
def staticAuthAdvisory : String :=
  "Static " ++ sQuote ++ "Authorization" ++ sQuote
    ++ " header will be overwritten by per-user token. "
    ++ "Remove it from headers or set auth_from_context=False."

/-- Warnings produced by the `validate_headers` field validator of
`McpServerConfig`: a non-fatal advisory when the headers carry a static
Authorization entry, nothing otherwise. The validator returns the headers
unchanged. -/
def validate_headers_warnings (v : Option (List (String × String))) : List String :=
  match v with
  | none => []
  | some hs => if hs.any (fun kv => kv.1 == "Authorization") then [staticAuthAdvisory] else []

/-! ## Remote tool loader, from `mcp_manager.py` -/

/-- Remote tool handle: the name the catalog exposes plus an opaque identity
and description, standing for a `BaseTool` instance. -/
structure Tool where
  name : String
  id : Nat
  description : String
  deriving DecidableEq

/-- Connection descriptor actually handed to the transport client: the
per-server entry of the `client_config` dictionary built by
`load_mcp_tools`. -/
structure ClientServerConfig where
  transport : String
  url : String
  headers : List (String × String)
  deriving DecidableEq

/-- Headers of the connection descriptor for one server: `load_mcp_tools`
starts from an injected `Authorization: Bearer <user_token>` entry and then
merges the static headers of the configuration over it via `dict.update`. -/
def resolvedClientHeaders (cfg : McpServerConfig) (user_token : String) :
    List (String × String) :=
  let base : List (String × String) := [("Authorization", "Bearer " ++ user_token)]
  match cfg.headers with
  | none => base
  | some hs => hs.foldl (fun d kv => pyDictInsert d kv.1 kv.2) base

/-- Full client configuration built by the loop at the top of
`load_mcp_tools`, one descriptor per configured server. -/
def build_client_config (servers : List (String × McpServerConfig))
    (user_token : String) : List (String × ClientServerConfig) :=
  servers.map (fun kv =>
    (kv.1, { transport := kv.2.transport, url := kv.2.url,
             headers := resolvedClientHeaders kv.2 user_token }))

/-- Union of all requested tool names across the filter, the
`requested_tools` set of `load_mcp_tools` (membership-based model of a
Python set). -/
def requestedToolNames (tool_filter : List (String × List String)) : List String :=
  tool_filter.foldl (fun acc kv => acc ++ kv.2) []

/-- Catalog tools whose name is in the requested set: the `filtered_tools`
comprehension of `load_mcp_tools`. -/
def matchedTools (all_tools : List Tool) (requested : List String) : List Tool :=
  all_tools.filter (fun t => requested.contains t.name)

/-- Requested names that did not match any catalog tool: the `missing_tools`
set of `load_mcp_tools` (membership-based model of set difference). -/
def unmatchedRequested (all_tools : List Tool) (requested : List String) : List String :=
  requested.filter (fun r => !((matchedTools all_tools requested).map Tool.name).contains r)

/-- Message of the `ValueError` raised when no catalog tool matches the
filter, naming the available catalog and the sorted requested set. -/
def noToolsMatchedMessage (available requested : List String) : String :=
  "No tools found matching filter" ++
    (". Available tools: " ++ pyReprList available
      ++ ", Requested tools: " ++ pyReprList requested)

/-- Non-fatal warning logged when some requested tools are absent from the
catalog, naming them sorted. -/
def missingToolsWarning (missing : List String) : String :=
  "Some requested tools were not found: " ++ pyReprList missing

/-- Message of the `ValueError` raised on an empty user token. -/
def invalidUserTokenMessage : String :=
  "user_token is required for MCP authentication. Token cannot be None or empty."

/-- Errors of the loader and the middleware layers. Constructors carry the
data the corresponding Python exception message is rendered from, and
`McpError.isValueError` records the Python exception class, which the
middleware dispatches on. -/
inductive McpError where
  | requiresTemplateVars (tvars : List String)
  | unexpectedRuntimeType (tvars : List String)
  | missingTemplateVariables (missing : List String)
  | invalidUserToken
  | noToolsMatched (available : List String) (requested : List String)
  | toolLoadFailed (msg : String)
  | noToolsLoaded
  | staticInitFailed (msg : String)
  | notLoaded (isDynamic : Bool)
  | toolNotFound (name : String) (available : List String)
  deriving DecidableEq

/-- Python exception class of each error: `True` for `ValueError`, `False`
for `RuntimeError`. -/
def McpError.isValueError : McpError → Bool
  | .requiresTemplateVars _ => true
  | .unexpectedRuntimeType _ => true
  | .missingTemplateVariables _ => true
  | .invalidUserToken => true
  | .noToolsMatched _ _ => true
  | .toolNotFound _ _ => true
  | _ => false

/-- Hint appended to the middleware configuration errors, rendering the
Python fragment that shows how to pass `config` with a `configurable`
mapping. -/
def configurableHint (tvars : List String) : String :=
  "Pass config=" ++ pyLb ++ sQuote ++ "configurable" ++ sQuote ++ ": " ++ pyLb
    ++ String.intercalate ", " (tvars.map (fun v => sQuote ++ v ++ sQuote ++ ": value"))
    ++ pyRb ++ pyRb ++ " when invoking agent."

/-- Message of the `ValueError` raised when the runtime carries no usable
configurable mapping at all. -/
def requiresTemplateVarsMessage (tvars : List String) : String :=
  "Dynamic MCP configuration requires template variables: " ++ pyReprList tvars
    ++ ". " ++ configurableHint tvars

/-- Message of the `ValueError` raised when the supplied configurable mapping
omits required template variables, naming the missing ones sorted. -/
def missingVarsMessage (missing : List String) : String :=
  "Missing required template variables:" ++
    (" " ++ pyReprList missing
      ++ ". Provide these in config[" ++ sQuote ++ "configurable" ++ sQuote ++ "]: "
      ++ String.intercalate ", " missing)

/-- Message of the `RuntimeError` raised by `get_tool` before tools are
loaded. -/
def notLoadedMessage (isDynamic : Bool) : String :=
  "MCP tools not loaded yet (" ++ (if isDynamic then "dynamic" else "static")
    ++ " mode). For static mode, this indicates initialization failure. "
    ++ "For dynamic mode, ensure middleware.before_agent() has been called "
    ++ "with proper config[" ++ sQuote ++ "configurable" ++ sQuote ++ "] values."

/-- Message of the `ValueError` raised by `get_tool` on a name that is not in
the cache, listing the cached names. -/
def toolNotFoundMessage (name : String) (available : List String) : String :=
  "Tool " ++ sQuote ++ name ++ sQuote ++ " not found in cache. Available tools: "
    ++ pyReprList available

/-- User-visible message of each error, mirroring the Python exception
messages. -/
def McpError.message : McpError → String
  | .requiresTemplateVars tvars => requiresTemplateVarsMessage tvars
  | .unexpectedRuntimeType tvars =>
    "Dynamic MCP configuration requires template variables: " ++ pyReprList tvars
      ++ ". Unexpected runtime type. " ++ configurableHint tvars
  | .missingTemplateVariables missing => missingVarsMessage missing
  | .invalidUserToken => invalidUserTokenMessage
  | .noToolsMatched available requested => noToolsMatchedMessage available requested
  | .toolLoadFailed msg => msg
  | .noToolsLoaded => "No MCP tools were loaded. Check MCP server accessibility and user permissions."
  | .staticInitFailed msg => msg
  | .notLoaded isDynamic => notLoadedMessage isDynamic
  | .toolNotFound name available => toolNotFoundMessage name available

/-- Outcome of `MultiServerMCPClient.get_tools()`: either the remote catalog
or a transport failure, supplied to `load_mcp_tools` as an explicit input. -/
inductive NetResult where
  | tools (catalog : List Tool)
  | failure (msg : String)

/-- Embedding of `load_mcp_tools` from `mcp_manager.py`: validate the token,
build the client configuration, obtain the catalog, filter it against the
union of requested names, fail when nothing matches, and otherwise return the
matching tools together with the non-fatal warnings logged. -/
def load_mcp_tools (servers : List (String × McpServerConfig))
    (tool_filter : List (String × List String)) (user_token : String)
    (net : NetResult) : Except McpError (List Tool × List String) :=
  if user_token == "" || pyStrip user_token == "" then
    Except.error McpError.invalidUserToken
  else
    let _client_config := build_client_config servers user_token
    match net with
    | NetResult.failure msg =>
      Except.error (McpError.toolLoadFailed
        ("MCP tool loading failed: " ++ msg
          ++ ". Check MCP server connectivity and authentication."))
    | NetResult.tools all_tools =>
      let requested := requestedToolNames tool_filter
      let filtered := matchedTools all_tools requested
      if filtered.isEmpty then
        Except.error (McpError.noToolsMatched (all_tools.map Tool.name) (sortedSet requested))
      else
        let missing := unmatchedRequested all_tools requested
        let warnings := if missing.isEmpty then [] else [missingToolsWarning (sortedSet missing)]
        Except.ok (filtered, warnings)

/-! ## Tool-loading middleware, from `middleware.py` -/

/-- Mutable state of one `McpToolsLoader` instance. The constructor stores
the raw server configs and the filter, computes `template_vars` and
`is_dynamic`, and initializes `_tools_loaded = False` with an empty cache.
The source defines no deferred-loading flag: these four attributes (plus the
two configuration fields) are the whole instance state. -/
structure McpToolsLoader where
  servers : ConfigValue
  tool_filter : List (String × List String)
  template_vars : List String
  is_dynamic : Bool
  tools_loaded : Bool
  tools_cache : List (String × Tool)

/-- Result of awaiting the `load_mcp_tools` call made by the middleware; the
repository tests exercise the middleware exactly through this interface by
patching `graphton.core.middleware.load_mcp_tools`. -/
abbrev Loader := ConfigValue → List (String × List String) → Except McpError (List Tool)

/-- Python dict comprehension caching tools by name,
`{tool.name: tool for tool in tools}`. -/
def toolsByName (tools : List Tool) : List (String × Tool) :=
  tools.foldl (fun d t => pyDictInsert d t.name t) []

/-- Attribute initialization of `McpToolsLoader.__init__` before the static
load attempt: template detection on the raw configs, empty cache, nothing
loaded. -/
def initLoader (servers : ConfigValue) (tool_filter : List (String × List String)) :
    McpToolsLoader :=
  let tvars := extract_template_vars servers
  { servers := servers, tool_filter := tool_filter, template_vars := tvars,
    is_dynamic := !tvars.isEmpty, tools_loaded := false, tools_cache := [] }

/-- Invocation runtime argument of the hooks: absent, a `Runtime` object
carrying an optional context mapping, a plain dict, or a value of an
unexpected type. -/
inductive RuntimeArg where
  | pyNone
  | runtimeObj (context : Option (List (String × String)))
  | plainDict (entries : List (String × List (String × String)))
  | otherObj

/-- Python truthiness test `not runtime`: `None` and the empty dict are
falsy; objects are truthy. -/
def RuntimeArg.isFalsy : RuntimeArg → Bool
  | .pyNone => true
  | .plainDict [] => true
  | _ => false

/-- Configurable extraction of `abefore_agent` lines 207-243: reject a falsy
runtime, read `runtime.context or {}` from a `Runtime` object and reject it
when empty, read the `configurable` key from a plain dict, and reject any
other runtime type. -/
def extractConfigurable (tvars : List String) (runtime : RuntimeArg) :
    Except McpError (List (String × String)) :=
  if runtime.isFalsy then Except.error (McpError.requiresTemplateVars (sortStrs tvars))
  else
    match runtime with
    | RuntimeArg.pyNone => Except.error (McpError.requiresTemplateVars (sortStrs tvars))
    | RuntimeArg.runtimeObj context =>
      let configurable := context.getD []
      if configurable.isEmpty then
        Except.error (McpError.requiresTemplateVars (sortStrs tvars))
      else Except.ok configurable
    | RuntimeArg.plainDict entries =>
      match pyLookup entries "configurable" with
      | none => Except.error (McpError.requiresTemplateVars (sortStrs tvars))
      | some configurable => Except.ok configurable
    | RuntimeArg.otherObj => Except.error (McpError.unexpectedRuntimeType (sortStrs tvars))

/-- Exception dispatch at the bottom of `abefore_agent`: a `ValueError` is
re-raised as-is, anything else is wrapped into the
`MCP tool loading failed` `RuntimeError`. -/
def wrapMiddlewareError (e : McpError) : McpError :=
  if e.isValueError then e
  else McpError.toolLoadFailed
    ("MCP tool loading failed: " ++ e.message
      ++ ". Check MCP server connectivity and authentication.")

/-- Result of one hook call: the instance state after the call, how many
times the remote load was executed during the call, and the outcome. -/
structure HookResult where
  state : McpToolsLoader
  loaderCalls : Nat
  outcome : Except McpError Unit

/-- Embedding of `McpToolsLoader.abefore_agent`: static mode returns
immediately; dynamic mode returns when already loaded, otherwise extracts the
configurable values, checks coverage of the template variables, substitutes,
runs the remote load, and on success caches the tools by name and marks the
instance loaded. Every failure leaves the instance state untouched. -/
def abefore_agent (mw : McpToolsLoader) (runtime : RuntimeArg) (loader : Loader) :
    HookResult :=
  if !mw.is_dynamic then ⟨mw, 0, Except.ok ()⟩
  else if mw.tools_loaded then ⟨mw, 0, Except.ok ()⟩
  else
    match extractConfigurable mw.template_vars runtime with
    | Except.error e => ⟨mw, 0, Except.error (wrapMiddlewareError e)⟩
    | Except.ok configurable =>
      let provided := configurable.map Prod.fst
      let missing := mw.template_vars.filter (fun v => !provided.contains v)
      if !missing.isEmpty then
        ⟨mw, 0, Except.error (wrapMiddlewareError
          (McpError.missingTemplateVariables (sortStrs missing)))⟩
      else
        match substitute_templates mw.servers configurable with
        | Except.error (TemplateError.missingTemplateVariables ms) =>
          ⟨mw, 0, Except.error (wrapMiddlewareError
            (McpError.missingTemplateVariables ms))⟩
        | Except.ok substituted =>
          match loader substituted mw.tool_filter with
          | Except.error e => ⟨mw, 1, Except.error (wrapMiddlewareError e)⟩
          | Except.ok tools =>
            if tools.isEmpty then
              ⟨mw, 1, Except.error (wrapMiddlewareError McpError.noToolsLoaded)⟩
            else
              ⟨{ mw with tools_cache := toolsByName tools, tools_loaded := true },
                1, Except.ok ()⟩

/-- Embedding of `McpToolsLoader.aafter_agent`: dynamic instances clear the
cache and reset the loaded flag; static instances keep the cache
permanently. -/
def aafter_agent (mw : McpToolsLoader) : McpToolsLoader :=
  if mw.is_dynamic then { mw with tools_cache := [], tools_loaded := false }
  else mw

/-- Embedding of `McpToolsLoader.get_tool`: fail when nothing is loaded
(message keyed by the mode), fail listing the cached names when the name is
absent, otherwise return the cached handle. -/
def get_tool (mw : McpToolsLoader) (tool_name : String) : Except McpError Tool :=
  if !mw.tools_loaded then Except.error (McpError.notLoaded mw.is_dynamic)
  else
    match pyLookup mw.tools_cache tool_name with
    | none => Except.error (McpError.toolNotFound tool_name (mw.tools_cache.map Prod.fst))
    | some t => Except.ok t

/-- Wrapper message of the `RuntimeError` raised when static loading fails at
construction time. -/
def staticInitFailedMessage (inner : String) : String :=
  "Static MCP tool loading failed during initialization: " ++ inner
    ++ ". Check MCP server connectivity and configuration."

/-- Message of the `RuntimeError` asyncio raises when `run_until_complete`
is entered on a thread whose scheduler is already running. -/
def nestedLoopMessage : String :=
  "Cannot run the event loop while another loop is running"

/-- Inner message of the `RuntimeError` raised when a static load returns no
tools. -/
def noStaticToolsMessage : String :=
  "No MCP tools were loaded from static configuration. Check server accessibility and tool filter."

/-- Result of running the constructor: the constructed instance or the
exception it raises, how many times the remote load ran to completion, and
whether `_load_static_tools` reached its synchronous load attempt. -/
structure CtorResult where
  result : Except McpError McpToolsLoader
  loaderCalls : Nat
  attemptedSyncLoad : Bool

/-- Embedding of `McpToolsLoader.__init__` together with
`_load_static_tools`. Dynamic configurations defer everything. Static
configurations always reach the synchronous load attempt: the
`Event loop already running` `RuntimeError` raised when a scheduler is active
is caught by the handler meant for the no-event-loop case, which installs a
fresh loop and proceeds, so with a running scheduler the attempt fails inside
`run_until_complete` instead of being deferred; without one the load runs to
completion and failure or an empty result raises from the constructor. -/
def constructLoader (servers : ConfigValue) (tool_filter : List (String × List String))
    (loopRunning : Bool) (loader : Loader) : CtorResult :=
  if (initLoader servers tool_filter).is_dynamic then
    ⟨Except.ok (initLoader servers tool_filter), 0, false⟩
  else if loopRunning then
    ⟨Except.error (McpError.staticInitFailed (staticInitFailedMessage nestedLoopMessage)),
      0, true⟩
  else
    match loader servers tool_filter with
    | Except.error e =>
      ⟨Except.error (McpError.staticInitFailed (staticInitFailedMessage e.message)), 1, true⟩
    | Except.ok tools =>
      if tools.isEmpty then
        ⟨Except.error (McpError.staticInitFailed (staticInitFailedMessage noStaticToolsMessage)),
          1, true⟩
      else
        ⟨Except.ok { initLoader servers tool_filter with
            tools_cache := toolsByName tools, tools_loaded := true },
          1, true⟩

/-! ## Tool wrappers, from `tool_wrappers.py` and `agent.py` -/

/-- Constructed proxy object: the tool name it stands for and the metadata
copied onto it. Resolution of the real callable goes through
`get_tool` at call time. -/
structure ToolWrapper where
  name : String
  description : String
  deriving DecidableEq

/-- Message of the `RuntimeError` raised when eager wrapper creation fails. -/
def cannotCreateWrapperMessage (tool_name inner : String) : String :=
  "Cannot create wrapper for tool " ++ sQuote ++ tool_name ++ sQuote ++ ": " ++ inner

/-- Embedding of `create_tool_wrapper`: construction pre-validates the tool
by calling `middleware_instance.get_tool(tool_name)` and fails when that
fails; on success the wrapper is built with the metadata of the cached
tool. -/
def create_tool_wrapper (tool_name : String) (mw : McpToolsLoader) :
    Except McpError ToolWrapper :=
  match get_tool mw tool_name with
  | Except.error e =>
    Except.error (McpError.toolLoadFailed (cannotCreateWrapperMessage tool_name e.message))
  | Except.ok t => Except.ok { name := tool_name, description := t.description }

/-- Placeholder description set on lazy wrappers. -/
def lazyWrapperDescription (tool_name : String) : String :=
  "MCP tool " ++ sQuote ++ tool_name ++ sQuote ++ " (loaded dynamically at invocation)"

/-- Embedding of `create_lazy_tool_wrapper`: construction never reads the
middleware cache; the wrapper is built from the name alone. -/
def create_lazy_tool_wrapper (tool_name : String) (_mw : McpToolsLoader) : ToolWrapper :=
  { name := tool_name, description := lazyWrapperDescription tool_name }

/-- Wrapper generation loop of `create_deep_agent` (agent.py lines 199-203):
one eager `create_tool_wrapper` call per requested tool name, aborting on the
first failure. -/
def createAgentMcpWrappers (mcp_tools : List (String × List String))
    (mw : McpToolsLoader) : Except McpError (List ToolWrapper) :=
  (mcp_tools.foldl (fun acc kv => acc ++ kv.2) []).foldlM
    (fun acc name => (create_tool_wrapper name mw).map (fun w => acc ++ [w])) []

/-! ## Call binding of the middleware load calls

Python binds positional arguments left to right against the required
parameters of the callee and raises `TypeError` naming the parameters left
over. `load_mcp_tools` declares three required parameters; both middleware
call sites pass two positional arguments. -/

/-- Required positional parameters of `load_mcp_tools` in `mcp_manager.py`. -/
def load_mcp_tools_required_params : List String := ["servers", "tool_filter", "user_token"]

/-- Positional arguments of the call in `_load_static_tools`,
`load_mcp_tools(self.servers, self.tool_filter)`. -/
def staticLoadCallArgs : List String := ["self.servers", "self.tool_filter"]

/-- Positional arguments of the call in `abefore_agent`,
`load_mcp_tools(substituted_servers, self.tool_filter)`. -/
def dynamicLoadCallArgs : List String := ["substituted_servers", "self.tool_filter"]

/-- Required parameters left unbound after positional binding; a call raises
`TypeError` exactly when this list is non-empty. -/
def missingCallArgs (required : List String) (supplied : Nat) : List String :=
  required.drop supplied

/-! ## Concrete fixtures used by witnesses and counterexamples -/

/-- Dynamic server configuration fixture: one server whose Authorization
header carries a template placeholder. -/
def demoDynamicServers : ConfigValue :=
  ConfigValue.obj [("planton-cloud", ConfigValue.obj
    [("transport", ConfigValue.str "streamable_http"),
     ("url", ConfigValue.str "https://mcp.planton.ai/"),
     ("headers", ConfigValue.obj
       [("Authorization", ConfigValue.str "Bearer \x7b\x7bUSER_TOKEN\x7d\x7d")])])]

/-- Tool filter fixture for the dynamic server. -/
def demoFilter : List (String × List String) := [("planton-cloud", ["list_organizations"])]

/-- Dynamic middleware instance as `__init__` leaves it (no load attempt in
dynamic mode). -/
def demoDynamicMw : McpToolsLoader := initLoader demoDynamicServers demoFilter

/-- Remote tool fixture matching the dynamic filter. -/
def demoTool : Tool := { name := "list_organizations", id := 1, description := "List the orgs" }

/-- Loader oracle that yields the dynamic tool fixture. -/
def okLoader : Loader := fun _ _ => Except.ok [demoTool]

/-- Loader oracle that fails with a transport error. -/
def failLoader : Loader := fun _ _ => Except.error (McpError.toolLoadFailed "connection refused")

/-- Invocation runtime fixture carrying the template value, in the plain-dict
form the tests use. -/
def demoRuntime : RuntimeArg :=
  RuntimeArg.plainDict [("configurable", [("USER_TOKEN", "token123")])]

/-- Invocation runtime fixture whose configurable mapping names a variable
the templates never reference. -/
def demoWrongVarRuntime : RuntimeArg :=
  RuntimeArg.plainDict [("configurable", [("OTHER_VAR", "oops")])]

/-- Static server configuration fixture: no template placeholders. -/
def demoStaticServers : ConfigValue :=
  ConfigValue.obj [("public-api", ConfigValue.obj
    [("transport", ConfigValue.str "streamable_http"),
     ("url", ConfigValue.str "https://api.example.com/mcp"),
     ("headers", ConfigValue.obj [("X-API-Key", ConfigValue.str "hardcoded-key-123")])])]

/-- Tool filter fixture for the static server. -/
def demoStaticFilter : List (String × List String) := [("public-api", ["search"])]

/-- Remote tool fixture matching the static filter. -/
def demoStaticTool : Tool := { name := "search", id := 2, description := "Search the api" }

/-- Loader oracle that yields the static tool fixture. -/
def staticLoader : Loader := fun _ _ => Except.ok [demoStaticTool]

/-- Static middleware instance as a successful constructor run (outside a
running scheduler) leaves it. -/
def demoStaticMw : McpToolsLoader :=
  { initLoader demoStaticServers demoStaticFilter with
    tools_cache := toolsByName [demoStaticTool], tools_loaded := true }

/-- Parsed static server configuration fixture for the loader layer. -/
def demoStaticCfg : McpServerConfig :=
  { transport := "streamable_http", url := "https://api.example.com/mcp",
    auth_from_context := true, headers := some [("X-API-Key", "hardcoded-key-123")] }

/-- Parsed server configuration fixture carrying a static Authorization
header. -/
def demoAuthCfg : McpServerConfig :=
  { transport := "streamable_http", url := "https://mcp.planton.ai/",
    auth_from_context := true, headers := some [("Authorization", "Bearer static-key")] }


theorem strLtB_asymm : ∀ a b : List Char, strLtB a b = true → strLtB b a = false := by
  intro a
  induction a with
  | nil => intro b _; cases b <;> simp [strLtB]
  | cons x xs ih =>
    intro b h
    cases b with
    | nil => simp [strLtB] at h
    | cons y ys =>
      simp only [strLtB] at h ⊢
      by_cases hxy : x.toNat < y.toNat
      · have : ¬ y.toNat < x.toNat := by omega
        simp [hxy, this]
      · by_cases hyx : y.toNat < x.toNat
        · simp [hxy, hyx] at h
        · simp [hxy, hyx] at h ⊢
          exact ih ys h

theorem pyStrLe_total (a b : String) : pyStrLe a b = true ∨ pyStrLe b a = true := by
  unfold pyStrLe
  by_cases h : strLtB b.data a.data = true
  · right
    have := strLtB_asymm _ _ h
    simp [this]
  · left
    simp [Bool.not_eq_true] at h
    simp [h]

theorem mem_insertStr (v s : String) (l : List String) :
    v ∈ insertStr s l ↔ v = s ∨ v ∈ l := by
  induction l with
  | nil => simp [insertStr]
  | cons t ts ih =>
    simp only [insertStr]
    by_cases h : pyStrLe s t = true
    · simp [h]
    · simp only [Bool.not_eq_true] at h
      simp [h, ih]
      tauto

theorem mem_sortStrs (v : String) (l : List String) :
    v ∈ sortStrs l ↔ v ∈ l := by
  induction l with
  | nil => simp [sortStrs]
  | cons s ts ih => simp [sortStrs, mem_insertStr, ih]

theorem mem_sortedSet (v : String) (l : List String) :
    v ∈ sortedSet l ↔ v ∈ l := by
  simp [sortedSet, mem_sortStrs, List.mem_dedup]

theorem sortedAdjB_insertStr (s : String) (l : List String)
    (h : sortedAdjB l = true) : sortedAdjB (insertStr s l) = true := by
  induction l with
  | nil => simp [insertStr, sortedAdjB]
  | cons t ts ih =>
    simp only [insertStr]
    by_cases hst : pyStrLe s t = true
    · simp [sortedAdjB, hst, h]
    · have hts : pyStrLe t s = true := by
        rcases pyStrLe_total s t with h1 | h1
        · exact absurd h1 hst
        · exact h1
      simp only [Bool.not_eq_true] at hst
      simp only [hst, if_false]
      cases ts with
      | nil => simp [insertStr, sortedAdjB, hts]
      | cons u us =>
        have hsub : sortedAdjB (u :: us) = true := by
          simp [sortedAdjB] at h
          exact h.2
        have htail := ih hsub
        have htu : pyStrLe t u = true := by
          simp [sortedAdjB] at h
          exact h.1
        simp only [insertStr] at htail ⊢
        by_cases hsu : pyStrLe s u = true
        · simp [hsu] at htail ⊢
          simp [sortedAdjB, hts, htail]
          exact ⟨hsu, hsub⟩
        · simp only [Bool.not_eq_true] at hsu
          simp [hsu] at htail ⊢
          simp [sortedAdjB, htu, htail]


theorem sortedAdjB_sortStrs (l : List String) : sortedAdjB (sortStrs l) = true := by
  induction l with
  | nil => simp [sortStrs, sortedAdjB]
  | cons s ts ih => exact sortedAdjB_insertStr s (sortStrs ts) ih

theorem sortedAdjB_sortedSet (l : List String) : sortedAdjB (sortedSet l) = true :=
  sortedAdjB_sortStrs l.dedup

theorem isPrefixB_append (p t : List Char) : isPrefixB p (p ++ t) = true := by
  induction p with
  | nil => simp [isPrefixB]
  | cons a as ih => simp [isPrefixB, ih]

theorem containsSubB_append_right (sub pre s : List Char)
    (h : containsSubB sub s = true) : containsSubB sub (pre ++ s) = true := by
  induction pre with
  | nil => simpa using h
  | cons c cs ih =>
    simp only [List.cons_append, containsSubB]
    simp [ih]

theorem containsSubB_nil_left (l : List Char) : containsSubB [] l = true := by
  cases l <;> simp [containsSubB, isPrefixB, List.isEmpty]

theorem strContains_of_append (sub rest : String) :
    strContains sub (sub ++ rest) := by
  unfold strContains
  have hdata : (sub ++ rest).data = sub.data ++ rest.data := rfl
  rw [hdata]
  cases h : sub.data with
  | nil => exact containsSubB_nil_left rest.data
  | cons c cs =>
    simp only [List.cons_append, containsSubB]
    have hp := isPrefixB_append (c :: cs) rest.data
    simp only [List.cons_append] at hp
    simp [hp]

theorem strData_append (a b : String) : (a ++ b).data = a.data ++ b.data := rfl

theorem strContains_of_data (sub s : String) (t : List Char)
    (h : s.data = sub.data ++ t) : strContains sub s := by
  unfold strContains
  rw [h]
  cases hs : sub.data with
  | nil => exact containsSubB_nil_left t
  | cons c cs =>
    simp only [List.cons_append, containsSubB]
    have hp := isPrefixB_append (c :: cs) t
    simp only [List.cons_append] at hp
    simp [hp]

theorem strContains_missingVarsMessage (missing : List String) :
    strContains "Missing required template variables:" (missingVarsMessage missing) := by
  unfold missingVarsMessage
  exact strContains_of_append _ _

theorem strContains_noToolsMatchedMessage (available requested : List String) :
    strContains "No tools found matching filter" (noToolsMatchedMessage available requested) := by
  unfold noToolsMatchedMessage
  exact strContains_of_append _ _

theorem abefore_agent_static (mw : McpToolsLoader) (rt : RuntimeArg) (loader : Loader)
    (h : mw.is_dynamic = false) : abefore_agent mw rt loader = ⟨mw, 0, Except.ok ()⟩ := by
  unfold abefore_agent
  simp [h]

theorem abefore_agent_already_loaded (mw : McpToolsLoader) (rt : RuntimeArg) (loader : Loader)
    (h1 : mw.is_dynamic = true) (h2 : mw.tools_loaded = true) :
    abefore_agent mw rt loader = ⟨mw, 0, Except.ok ()⟩ := by
  unfold abefore_agent
  simp [h1, h2]


theorem abefore_agent_dynamic_spec (mw : McpToolsLoader) (rt : RuntimeArg) (loader : Loader)
    (hdyn : mw.is_dynamic = true) (hload : mw.tools_loaded = false) :
    ((abefore_agent mw rt loader).state = mw
      ∧ ∃ e, (abefore_agent mw rt loader).outcome = Except.error e)
    ∨ (∃ tools, tools ≠ []
      ∧ abefore_agent mw rt loader
        = ⟨{ mw with tools_cache := toolsByName tools, tools_loaded := true },
            1, Except.ok ()⟩) := by
  unfold abefore_agent
  rw [hdyn, hload]
  simp only [Bool.not_true, Bool.false_eq_true, if_false]
  split
  · exact Or.inl ⟨rfl, ⟨_, rfl⟩⟩
  · split
    · exact Or.inl ⟨rfl, ⟨_, rfl⟩⟩
    · split
      · exact Or.inl ⟨rfl, ⟨_, rfl⟩⟩
      · split
        · exact Or.inl ⟨rfl, ⟨_, rfl⟩⟩
        · split
          · exact Or.inl ⟨rfl, ⟨_, rfl⟩⟩
          · rename_i tools hld htools
            refine Or.inr ⟨tools, ?_, rfl⟩
            intro hnil
            apply htools
            rw [hnil]
            rfl

theorem abefore_agent_is_dynamic (mw : McpToolsLoader) (rt : RuntimeArg) (loader : Loader) :
    (abefore_agent mw rt loader).state.is_dynamic = mw.is_dynamic := by
  cases hdyn : mw.is_dynamic with
  | false => rw [abefore_agent_static mw rt loader hdyn]; exact hdyn
  | true =>
    cases hload : mw.tools_loaded with
    | true => rw [abefore_agent_already_loaded mw rt loader hdyn hload]; exact hdyn
    | false =>
      rcases abefore_agent_dynamic_spec mw rt loader hdyn hload with
        ⟨hst, _⟩ | ⟨tools, _, heq⟩
      · rw [hst]; exact hdyn
      · rw [heq]; exact hdyn

/-- C5: for every dynamic-mode middleware, after any successful before hook
followed by the after hook the tool cache is empty, the loaded flag is false,
and `get_tool` fails with the dynamic not-loaded error on every name, so
cached handles and substituted credentials never survive the invocation that
supplied them. -/
theorem mcp_dynamic_cache_clearing_law
    (mw : McpToolsLoader) (runtime : RuntimeArg) (loader : Loader)
    (hdyn : mw.is_dynamic = true)
    (_hok : (abefore_agent mw runtime loader).outcome = Except.ok ()) :
    (aafter_agent (abefore_agent mw runtime loader).state).tools_cache = []
    ∧ (aafter_agent (abefore_agent mw runtime loader).state).tools_loaded = false
    ∧ ∀ name, get_tool (aafter_agent (abefore_agent mw runtime loader).state) name
        = Except.error (McpError.notLoaded true) := by
  have hd : (abefore_agent mw runtime loader).state.is_dynamic = true := by
    rw [abefore_agent_is_dynamic]; exact hdyn
  have hres : aafter_agent (abefore_agent mw runtime loader).state
      = { (abefore_agent mw runtime loader).state with
          tools_cache := [], tools_loaded := false } := by
    unfold aafter_agent
    rw [hd]
    simp [hd]
  rw [hres]
  refine ⟨rfl, rfl, ?_⟩
  intro name
  unfold get_tool
  simp [hd]

/-- Witness for C5 at a concrete dynamic configuration, runtime and loader. -/
theorem mcp_dynamic_cache_clearing_law_witness :
    (demoDynamicMw.is_dynamic = true
      ∧ (abefore_agent demoDynamicMw demoRuntime okLoader).outcome = Except.ok ())
    ∧ ((aafter_agent (abefore_agent demoDynamicMw demoRuntime okLoader).state).tools_cache = []
      ∧ (aafter_agent (abefore_agent demoDynamicMw demoRuntime okLoader).state).tools_loaded = false
      ∧ ∀ name, get_tool (aafter_agent (abefore_agent demoDynamicMw demoRuntime okLoader).state) name
          = Except.error (McpError.notLoaded true)) :=
  ⟨⟨rfl, rfl⟩, mcp_dynamic_cache_clearing_law demoDynamicMw demoRuntime okLoader rfl rfl⟩

/-- C9: whenever the before hook fails, the instance state is exactly what it
was before the call, the loaded flag is false, and `get_tool` fails with the
not-loaded error on every name: cache population is all-or-nothing and the
next attempt starts from consistent state. -/
theorem mcp_failed_load_leaves_consistent_state
    (mw : McpToolsLoader) (runtime : RuntimeArg) (loader : Loader) (e : McpError)
    (herr : (abefore_agent mw runtime loader).outcome = Except.error e) :
    (abefore_agent mw runtime loader).state = mw
    ∧ (abefore_agent mw runtime loader).state.tools_loaded = false
    ∧ ∀ name, get_tool (abefore_agent mw runtime loader).state name
        = Except.error (McpError.notLoaded mw.is_dynamic) := by
  cases hdyn : mw.is_dynamic with
  | false =>
    rw [abefore_agent_static mw runtime loader hdyn] at herr
    exact absurd herr (by simp)
  | true =>
    cases hload : mw.tools_loaded with
    | true =>
      rw [abefore_agent_already_loaded mw runtime loader hdyn hload] at herr
      exact absurd herr (by simp)
    | false =>
      rcases abefore_agent_dynamic_spec mw runtime loader hdyn hload with
        ⟨hst, _⟩ | ⟨tools, _, heq⟩
      · refine ⟨hst, ?_, ?_⟩
        · rw [hst]; exact hload
        · intro name
          unfold get_tool
          rw [hst, hload]
          simp [hdyn]
      · rw [heq] at herr
        exact absurd herr (by simp)

/-- Witness for C9 at a concrete failing invocation: the configurable mapping
names a variable the templates never reference, so the USER_TOKEN variable is
missing and the hook fails. -/
theorem mcp_failed_load_leaves_consistent_state_witness :
    ((abefore_agent demoDynamicMw demoWrongVarRuntime okLoader).outcome
        = Except.error (McpError.missingTemplateVariables ["USER_TOKEN"]))
    ∧ ((abefore_agent demoDynamicMw demoWrongVarRuntime okLoader).state = demoDynamicMw
      ∧ (abefore_agent demoDynamicMw demoWrongVarRuntime okLoader).state.tools_loaded = false
      ∧ ∀ name, get_tool (abefore_agent demoDynamicMw demoWrongVarRuntime okLoader).state name
          = Except.error (McpError.notLoaded demoDynamicMw.is_dynamic)) :=
  ⟨rfl, mcp_failed_load_leaves_consistent_state demoDynamicMw demoWrongVarRuntime okLoader
      (McpError.missingTemplateVariables ["USER_TOKEN"]) rfl⟩

/-- C7 counterexample: with a loader that fails, two successive before hooks
without an intervening after hook perform two remote-load calls, and the
second call observes loaded = false, refuting the claim as stated for every
middleware instance. -/
theorem mcp_idempotent_loading_counterexample :
    (abefore_agent demoDynamicMw demoRuntime failLoader).loaderCalls
      + (abefore_agent (abefore_agent demoDynamicMw demoRuntime failLoader).state
          demoRuntime failLoader).loaderCalls = 2
    ∧ (abefore_agent demoDynamicMw demoRuntime failLoader).state.tools_loaded = false := by
  exact ⟨rfl, rfl⟩

/-- C7 amended: for every middleware instance whose construction succeeded
(outside a running scheduler) and whose first before hook succeeds, exactly
one remote-load call happens across construction and two successive before
hooks without an intervening after hook; the second hook call performs no
load, succeeds, and observes loaded = true. -/
theorem mcp_idempotent_loading_amended
    (servers : ConfigValue) (tool_filter : List (String × List String))
    (ctorLoader loader : Loader) (runtime : RuntimeArg) (mw : McpToolsLoader)
    (hctor : (constructLoader servers tool_filter false ctorLoader).result = Except.ok mw)
    (hok : (abefore_agent mw runtime loader).outcome = Except.ok ()) :
    (constructLoader servers tool_filter false ctorLoader).loaderCalls
      + (abefore_agent mw runtime loader).loaderCalls
      + (abefore_agent (abefore_agent mw runtime loader).state runtime loader).loaderCalls = 1
    ∧ (abefore_agent (abefore_agent mw runtime loader).state runtime loader).loaderCalls = 0
    ∧ (abefore_agent (abefore_agent mw runtime loader).state runtime loader).outcome
        = Except.ok ()
    ∧ (abefore_agent mw runtime loader).state.tools_loaded = true := by
  unfold constructLoader at hctor ⊢
  cases hdyn : (initLoader servers tool_filter).is_dynamic with
  | true =>
    rw [hdyn] at hctor
    simp only [if_true] at hctor
    injection hctor with hmw
    have hdm : mw.is_dynamic = true := by rw [← hmw]; exact hdyn
    have hlm : mw.tools_loaded = false := by rw [← hmw]; rfl
    rcases abefore_agent_dynamic_spec mw runtime loader hdm hlm with
      ⟨_, e, herr⟩ | ⟨tools, hne, heq⟩
    · rw [herr] at hok
      exact absurd hok (by simp)
    · have hsecond : abefore_agent
          { mw with tools_cache := toolsByName tools, tools_loaded := true } runtime loader
          = ⟨{ mw with tools_cache := toolsByName tools, tools_loaded := true },
              0, Except.ok ()⟩ :=
        abefore_agent_already_loaded _ runtime loader hdm rfl
      rw [heq]
      simp only [hsecond]
      simp
  | false =>
    rw [hdyn] at hctor
    simp only [Bool.false_eq_true, if_false] at hctor ⊢
    split at hctor
    · exact absurd hctor (by simp)
    · split at hctor
      · exact absurd hctor (by simp)
      · rename_i tools hld htools
        injection hctor with hmw
        have hdm : mw.is_dynamic = false := by rw [← hmw]; exact hdyn
        have hlm : mw.tools_loaded = true := by rw [← hmw]
        rw [if_neg htools]
        simp only [abefore_agent_static mw runtime loader hdm]
        simp [hlm]

/-- Witness for the amended C7 at a concrete static construction. -/
theorem mcp_idempotent_loading_amended_witness :
    ((constructLoader demoStaticServers demoStaticFilter false staticLoader).result
        = Except.ok demoStaticMw
      ∧ (abefore_agent demoStaticMw demoRuntime staticLoader).outcome = Except.ok ())
    ∧ ((constructLoader demoStaticServers demoStaticFilter false staticLoader).loaderCalls
        + (abefore_agent demoStaticMw demoRuntime staticLoader).loaderCalls
        + (abefore_agent (abefore_agent demoStaticMw demoRuntime staticLoader).state
            demoRuntime staticLoader).loaderCalls = 1
      ∧ (abefore_agent (abefore_agent demoStaticMw demoRuntime staticLoader).state
          demoRuntime staticLoader).loaderCalls = 0
      ∧ (abefore_agent (abefore_agent demoStaticMw demoRuntime staticLoader).state
          demoRuntime staticLoader).outcome = Except.ok ()
      ∧ (abefore_agent demoStaticMw demoRuntime staticLoader).state.tools_loaded = true) :=
  ⟨⟨rfl, rfl⟩, mcp_idempotent_loading_amended demoStaticServers demoStaticFilter staticLoader
      staticLoader demoRuntime demoStaticMw rfl rfl⟩

/-- C8 counterexample: an invocation that supplies an empty configurable
mapping through the Runtime object context path fails with the
`Dynamic MCP configuration requires template variables` error, whose message
does not contain the stable substring the claim requires. -/
theorem mcp_missing_vars_message_counterexample :
    (abefore_agent demoDynamicMw (RuntimeArg.runtimeObj (some [])) okLoader).outcome
      = Except.error (McpError.requiresTemplateVars ["USER_TOKEN"])
    ∧ ¬ strContains "Missing required template variables:"
        (McpError.requiresTemplateVars ["USER_TOKEN"]).message := by
  refine ⟨rfl, ?_⟩
  decide

/-- C8 amended: for every dynamic-mode middleware that has not loaded and
every invocation whose runtime yields a configurable mapping (the dict path,
or a Runtime object with non-empty context) that does not cover the template
variable set, the before hook fails with the missing-variables error naming
exactly the referenced-but-unsupplied variables, sorted, and its message
carries the stable substring; an invocation whose runtime yields no usable
mapping instead fails with the requires-template-variables error naming all
template variables. -/
theorem mcp_missing_vars_completeness_amended
    (mw : McpToolsLoader) (runtime : RuntimeArg) (loader : Loader)
    (configurable : List (String × String))
    (hdyn : mw.is_dynamic = true) (hload : mw.tools_loaded = false)
    (hcfg : extractConfigurable mw.template_vars runtime = Except.ok configurable)
    (hmiss : mw.template_vars.filter
        (fun v => !(configurable.map Prod.fst).contains v) ≠ []) :
    (abefore_agent mw runtime loader).outcome
      = Except.error (McpError.missingTemplateVariables
          (sortStrs (mw.template_vars.filter
            (fun v => !(configurable.map Prod.fst).contains v))))
    ∧ (∀ v, v ∈ sortStrs (mw.template_vars.filter
          (fun v => !(configurable.map Prod.fst).contains v))
        ↔ (v ∈ mw.template_vars ∧ (configurable.map Prod.fst).contains v = false))
    ∧ sortedAdjB (sortStrs (mw.template_vars.filter
        (fun v => !(configurable.map Prod.fst).contains v))) = true
    ∧ strContains "Missing required template variables:"
        (McpError.missingTemplateVariables
          (sortStrs (mw.template_vars.filter
            (fun v => !(configurable.map Prod.fst).contains v)))).message := by
  refine ⟨?_, ?_, sortedAdjB_sortStrs _, strContains_missingVarsMessage _⟩
  · unfold abefore_agent
    rw [hdyn, hload]
    simp only [Bool.not_true, Bool.false_eq_true, if_false]
    rw [hcfg]
    have hne : (mw.template_vars.filter
        (fun v => !(configurable.map Prod.fst).contains v)).isEmpty = false := by
      cases hcase : mw.template_vars.filter
          (fun v => !(configurable.map Prod.fst).contains v) with
      | nil => exact absurd hcase hmiss
      | cons a as => rfl
    simp only [hne, Bool.not_false, if_true]
    rfl
  · intro v
    rw [mem_sortStrs, List.mem_filter]
    simp

/-- Witness for the amended C8: the configurable mapping supplies only an
unreferenced variable, so USER_TOKEN is reported missing, sorted, with the
stable message prefix. -/
theorem mcp_missing_vars_completeness_amended_witness :
    (demoDynamicMw.is_dynamic = true
      ∧ demoDynamicMw.tools_loaded = false
      ∧ extractConfigurable demoDynamicMw.template_vars demoWrongVarRuntime
          = Except.ok [("OTHER_VAR", "oops")]
      ∧ demoDynamicMw.template_vars.filter
          (fun v => !(([("OTHER_VAR", "oops")] : List (String × String)).map
            Prod.fst).contains v) ≠ [])
    ∧ ((abefore_agent demoDynamicMw demoWrongVarRuntime okLoader).outcome
        = Except.error (McpError.missingTemplateVariables
            (sortStrs (demoDynamicMw.template_vars.filter
              (fun v => !(([("OTHER_VAR", "oops")] : List (String × String)).map
                Prod.fst).contains v))))
      ∧ (∀ v, v ∈ sortStrs (demoDynamicMw.template_vars.filter
            (fun v => !(([("OTHER_VAR", "oops")] : List (String × String)).map
              Prod.fst).contains v))
          ↔ (v ∈ demoDynamicMw.template_vars
            ∧ (([("OTHER_VAR", "oops")] : List (String × String)).map
                Prod.fst).contains v = false))
      ∧ sortedAdjB (sortStrs (demoDynamicMw.template_vars.filter
          (fun v => !(([("OTHER_VAR", "oops")] : List (String × String)).map
            Prod.fst).contains v))) = true
      ∧ strContains "Missing required template variables:"
          (McpError.missingTemplateVariables
            (sortStrs (demoDynamicMw.template_vars.filter
              (fun v => !(([("OTHER_VAR", "oops")] : List (String × String)).map
                Prod.fst).contains v)))).message) :=
  ⟨⟨rfl, rfl, rfl, by decide⟩,
    mcp_missing_vars_completeness_amended demoDynamicMw demoWrongVarRuntime okLoader
      [("OTHER_VAR", "oops")] rfl rfl rfl (by decide)⟩

/-- C10: the remote tool loader fails with the no-tools-matched error, naming
the available catalog and the sorted requested set and carrying the stable
substring, exactly when zero of the requested tool names appear in the
catalog; when some catalog tool matches it returns exactly the matching
tools, together with a single non-fatal warning naming the sorted
requested-but-not-found names whenever the match is a strict subset, and no
warning otherwise. -/
theorem mcp_load_filter_empty_vs_subset_law
    (servers : List (String × McpServerConfig)) (tool_filter : List (String × List String))
    (user_token : String) (catalog : List Tool)
    (htok : (user_token == "" || pyStrip user_token == "") = false) :
    ((matchedTools catalog (requestedToolNames tool_filter)).isEmpty = true
      ↔ ∀ t ∈ catalog, (requestedToolNames tool_filter).contains t.name = false)
    ∧ ((matchedTools catalog (requestedToolNames tool_filter)).isEmpty = true →
      load_mcp_tools servers tool_filter user_token (NetResult.tools catalog)
        = Except.error (McpError.noToolsMatched (catalog.map Tool.name)
            (sortedSet (requestedToolNames tool_filter)))
      ∧ strContains "No tools found matching filter"
          (McpError.noToolsMatched (catalog.map Tool.name)
            (sortedSet (requestedToolNames tool_filter))).message)
    ∧ ((matchedTools catalog (requestedToolNames tool_filter)).isEmpty = false →
      load_mcp_tools servers tool_filter user_token (NetResult.tools catalog)
        = Except.ok (matchedTools catalog (requestedToolNames tool_filter),
            if (unmatchedRequested catalog (requestedToolNames tool_filter)).isEmpty
            then []
            else [missingToolsWarning
              (sortedSet (unmatchedRequested catalog (requestedToolNames tool_filter)))])) := by
  refine ⟨?_, ?_, ?_⟩
  · unfold matchedTools
    rw [List.isEmpty_iff, List.filter_eq_nil_iff]
    constructor
    · intro h t ht
      have := h t ht
      simpa using this
    · intro h t ht
      have := h t ht
      simpa using this
  · intro hempty
    constructor
    · unfold load_mcp_tools
      rw [htok]
      simp only [Bool.false_eq_true, if_false]
      rw [hempty]
      simp only [if_true]
    · exact strContains_noToolsMatchedMessage _ _
  · intro hne
    unfold load_mcp_tools
    rw [htok]
    simp only [Bool.false_eq_true, if_false]
    rw [hne]
    simp only [Bool.false_eq_true, if_false]

/-- Witness for C10 at a concrete strict-subset scenario: one of two
requested tools is present in the catalog. -/
theorem mcp_load_filter_empty_vs_subset_law_witness :
    (("tok" == "" || pyStrip "tok" == "") = false)
    ∧ (((matchedTools [demoStaticTool]
          (requestedToolNames [("public-api", ["search", "ghost_tool"])])).isEmpty = true
        ↔ ∀ t ∈ [demoStaticTool],
          (requestedToolNames [("public-api", ["search", "ghost_tool"])]).contains t.name = false)
      ∧ ((matchedTools [demoStaticTool]
          (requestedToolNames [("public-api", ["search", "ghost_tool"])])).isEmpty = true →
        load_mcp_tools [("public-api", demoStaticCfg)] [("public-api", ["search", "ghost_tool"])]
            "tok" (NetResult.tools [demoStaticTool])
          = Except.error (McpError.noToolsMatched ([demoStaticTool].map Tool.name)
              (sortedSet (requestedToolNames [("public-api", ["search", "ghost_tool"])])))
        ∧ strContains "No tools found matching filter"
            (McpError.noToolsMatched ([demoStaticTool].map Tool.name)
              (sortedSet (requestedToolNames [("public-api", ["search", "ghost_tool"])]))).message)
      ∧ ((matchedTools [demoStaticTool]
          (requestedToolNames [("public-api", ["search", "ghost_tool"])])).isEmpty = false →
        load_mcp_tools [("public-api", demoStaticCfg)] [("public-api", ["search", "ghost_tool"])]
            "tok" (NetResult.tools [demoStaticTool])
          = Except.ok (matchedTools [demoStaticTool]
              (requestedToolNames [("public-api", ["search", "ghost_tool"])]),
              if (unmatchedRequested [demoStaticTool]
                  (requestedToolNames [("public-api", ["search", "ghost_tool"])])).isEmpty
              then []
              else [missingToolsWarning
                (sortedSet (unmatchedRequested [demoStaticTool]
                  (requestedToolNames [("public-api", ["search", "ghost_tool"])])))]))) :=
  ⟨rfl, mcp_load_filter_empty_vs_subset_law [("public-api", demoStaticCfg)]
      [("public-api", ["search", "ghost_tool"])] "tok" [demoStaticTool] rfl⟩

/-- C1: code-bug evidence — a static configuration constructed while a
cooperative scheduler runs on the thread still reaches the synchronous load
attempt (the running-loop RuntimeError is caught by the handler for the
no-event-loop case) and the constructor raises the static-init failure
instead of deferring, while the before hook in static mode never performs a
load, so no deferred load can ever happen. -/
theorem mcp_static_ctor_attempts_load_despite_running_loop :
    (initLoader demoStaticServers demoStaticFilter).is_dynamic = false
    ∧ (constructLoader demoStaticServers demoStaticFilter true staticLoader).attemptedSyncLoad
        = true
    ∧ (constructLoader demoStaticServers demoStaticFilter true staticLoader).result
        = Except.error (McpError.staticInitFailed (staticInitFailedMessage nestedLoopMessage))
    ∧ (abefore_agent (initLoader demoStaticServers demoStaticFilter) demoRuntime
        staticLoader).loaderCalls = 0
    ∧ (abefore_agent demoStaticMw demoRuntime staticLoader).loaderCalls = 0 := by
  exact ⟨rfl, rfl, rfl, rfl, rfl⟩

/-- C2: code-bug evidence — the eager wrapper constructor used by
`create_deep_agent` calls `get_tool` during construction, so for a
dynamic-mode middleware that has not loaded it fails, and the agent factory
cannot build its tool wrappers; the lazy wrapper constructor never reads the
middleware state at all. -/
theorem mcp_eager_wrapper_construction_reads_cache :
    create_tool_wrapper "list_organizations" demoDynamicMw
      = Except.error (McpError.toolLoadFailed
          (cannotCreateWrapperMessage "list_organizations" (notLoadedMessage true)))
    ∧ createAgentMcpWrappers demoFilter demoDynamicMw
      = Except.error (McpError.toolLoadFailed
          (cannotCreateWrapperMessage "list_organizations" (notLoadedMessage true)))
    ∧ (∀ n : String, ∀ mwA mwB : McpToolsLoader,
        create_lazy_tool_wrapper n mwA = create_lazy_tool_wrapper n mwB) := by
  exact ⟨rfl, rfl, fun _ _ _ => rfl⟩

/-- C3: code-bug evidence — the remote tool loader injects the default
`Authorization: Bearer` credential into every connection descriptor it
builds, even for a server whose configuration carries no Authorization
header, and it rejects an empty caller credential outright. -/
theorem mcp_loader_injects_default_bearer_credential :
    resolvedClientHeaders demoStaticCfg "tok"
      = [("Authorization", "Bearer tok"), ("X-API-Key", "hardcoded-key-123")]
    ∧ build_client_config [("public-api", demoStaticCfg)] "tok"
      = [("public-api",
          { transport := "streamable_http", url := "https://api.example.com/mcp",
            headers := [("Authorization", "Bearer tok"),
              ("X-API-Key", "hardcoded-key-123")] })]
    ∧ load_mcp_tools [("public-api", demoStaticCfg)] demoStaticFilter ""
        (NetResult.tools [demoStaticTool]) = Except.error McpError.invalidUserToken := by
  exact ⟨rfl, rfl, rfl⟩

/-- C4: code-bug evidence — configuration validation does emit the advisory
for a static Authorization header, but in the connection descriptor actually
built the static header overwrites the injected per-user credential, the
opposite of what the advisory and the claim state. -/
theorem mcp_static_authorization_header_takes_precedence :
    validate_headers_warnings demoAuthCfg.headers = [staticAuthAdvisory]
    ∧ pyLookup (resolvedClientHeaders demoAuthCfg "user-tok") "Authorization"
        = some "Bearer static-key"
    ∧ pyLookup (resolvedClientHeaders demoAuthCfg "user-tok") "Authorization"
        ≠ some ("Bearer " ++ "user-tok") := by
  refine ⟨rfl, rfl, ?_⟩
  decide

/-- C6: code-bug evidence — both middleware call sites pass two positional
arguments to `load_mcp_tools`, whose signature declares three required
parameters, so Python call binding leaves `user_token` unbound and every
middleware-initiated load attempt raises a missing-argument TypeError before
any network I/O. -/
theorem mcp_load_call_sites_omit_user_token :
    missingCallArgs load_mcp_tools_required_params staticLoadCallArgs.length = ["user_token"]
    ∧ missingCallArgs load_mcp_tools_required_params dynamicLoadCallArgs.length = ["user_token"]
    ∧ (missingCallArgs load_mcp_tools_required_params staticLoadCallArgs.length).isEmpty
        = false := by
  exact ⟨rfl, rfl, rfl⟩
